import Mathlib

/-!
Verification development for the md2googleslides core: a shallow embedding of
the markdown-to-slides compiler (`src/env.ts` / `src/extract_slides.ts`), the
layout classifier (`src/layout/match_layout.ts`), the request generator
(`src/layout/generic_layout.ts`) and the CSS style resolver
(`src/parser/css.ts`), together with theorems about the behaviour of these
functions.  Each definition is translated from the corresponding TypeScript
source; deviations forced by the purely functional setting (explicit state
passing instead of in-place mutation, `Except` instead of thrown exceptions)
are noted next to the definition they concern.
-/

/-- Colors as used in style payloads: either a theme color reference
(e.g. `TEXT1` for table cells) or an RGB triple with components in `[0,1]`
(`parseColorString` divides 0..255 channel values by 255). -/
inductive Color where
  | theme (name : String)
  | rgb (red green blue : ℚ)
deriving DecidableEq, Repr

/-- The style keys of the TypeScript `StyleDefinition` interface
(`src/slides.ts`), excluding the range fields `start`/`end` which are kept
separate in this model. -/
inductive StyleKey where
  | bold | italic | fontFamily | foregroundColor | link | backgroundColor
  | underline | strikethrough | smallCaps | baselineOffset | fontSize
deriving DecidableEq, Repr

/-- Values a style key can carry: booleans, strings (font family, baseline
offset, link URL) and point sizes (`fontSize` always has unit PT). -/
inductive StyleValue where
  | b (x : Bool)
  | s (x : String)
  | c (x : Color)
  | size (points : Nat)
deriving DecidableEq, Repr

/-- A style payload: the optional fields of `StyleDefinition` from
`src/slides.ts`.  A field being `none` corresponds to the key being absent
from the JavaScript object (node-extend skips `undefined` values, so absent
and `undefined` coincide for all the operations modelled here). -/
structure StylePayload where
  bold : Option Bool := none
  italic : Option Bool := none
  fontFamily : Option String := none
  foregroundColor : Option Color := none
  link : Option String := none
  backgroundColor : Option Color := none
  underline : Option Bool := none
  strikethrough : Option Bool := none
  smallCaps : Option Bool := none
  baselineOffset : Option String := none
  fontSize : Option Nat := none
deriving DecidableEq, Repr

/-- Uniform observer for a payload key, packing each field into `StyleValue`. -/
def StylePayload.get (p : StylePayload) : StyleKey → Option StyleValue
  | .bold => p.bold.map .b
  | .italic => p.italic.map .b
  | .fontFamily => p.fontFamily.map .s
  | .foregroundColor => p.foregroundColor.map .c
  | .link => p.link.map .s
  | .backgroundColor => p.backgroundColor.map .c
  | .underline => p.underline.map .b
  | .strikethrough => p.strikethrough.map .b
  | .smallCaps => p.smallCaps.map .b
  | .baselineOffset => p.baselineOffset.map .s
  | .fontSize => p.fontSize.map .size

/-- All style keys, in the declaration order of the `StyleDefinition`
interface. -/
def allStyleKeys : List StyleKey :=
  [.bold, .italic, .fontFamily, .foregroundColor, .link, .backgroundColor,
   .underline, .strikethrough, .smallCaps, .baselineOffset, .fontSize]

/-- `pick higher lower` keeps `higher` when it is set, otherwise `lower`:
the per-key behaviour of node-extend where a later source overrides an
earlier one. -/
def pick {α : Type} (higher lower : Option α) : Option α :=
  match higher with
  | some v => some v
  | none => lower

/-- `extend({}, newStyle, previousStyle)` from `Context.startStyle`
(`src/env.ts`): node-extend applies sources left to right, so for every key
set in both, the LATER source — `previousStyle`, the enclosing scope — wins. -/
def extendPayload (newStyle previousStyle : StylePayload) : StylePayload where
  bold := pick previousStyle.bold newStyle.bold
  italic := pick previousStyle.italic newStyle.italic
  fontFamily := pick previousStyle.fontFamily newStyle.fontFamily
  foregroundColor := pick previousStyle.foregroundColor newStyle.foregroundColor
  link := pick previousStyle.link newStyle.link
  backgroundColor := pick previousStyle.backgroundColor newStyle.backgroundColor
  underline := pick previousStyle.underline newStyle.underline
  strikethrough := pick previousStyle.strikethrough newStyle.strikethrough
  smallCaps := pick previousStyle.smallCaps newStyle.smallCaps
  baselineOffset := pick previousStyle.baselineOffset newStyle.baselineOffset
  fontSize := pick previousStyle.fontSize newStyle.fontSize

/-- The empty payload (`{}`). -/
def emptyPayload : StylePayload := {}

/-- `_.isEmpty(_.keys(_.omit(style, 'start', 'end')))` from
`Context.endStyle`: true when no style key is set. -/
def payloadIsEmpty (p : StylePayload) : Bool :=
  allStyleKeys.all fun k => (p.get k).isNone

/-- One clause of lodash `_.matches`: a key set in the source must be present
with an equal value in the candidate; an unset source key is unconstrained. -/
def subsumes (src cand : Option StyleValue) : Bool :=
  match src with
  | none => true
  | some v => cand == some v

/-- The payload part of `_.matches(style)`: every key set in `src` has the
same value in `cand` (the candidate may set additional keys). -/
def payloadMatches (src cand : StylePayload) : Bool :=
  allStyleKeys.all fun k => subsumes (src.get k) (cand.get k)

/-- A style run: a character range over a text block with a style payload.
In the source this is a `StyleDefinition` whose `start`/`end` fields have
been filled in by `startStyle`/`endStyle`; the range upper bound is called
`stop` here because `end` is reserved in Lean. -/
structure StyleRun where
  start : Nat
  stop : Nat
  payload : StylePayload
deriving DecidableEq, Repr

/-- A list-bullet range (`ListMarker` in `src/slides.ts`); `type` is the
string `"ordered"` or `"unordered"`. -/
structure ListMarker where
  start : Nat
  stop : Nat
  type : String
deriving DecidableEq, Repr

/-- `TextDefinition` from `src/slides.ts`. -/
structure TextDefinition where
  rawText : String
  textRuns : List StyleRun
  listMarkers : List ListMarker
  big : Bool
deriving DecidableEq, Repr

/-- `ImageDefinition` from `src/slides.ts`; dimensions and offsets are
modelled as rationals (JavaScript numbers). -/
structure ImageDefinition where
  url : Option String := none
  width : ℚ := 0
  height : ℚ := 0
  padding : ℚ := 0
  offsetX : ℚ := 0
  offsetY : ℚ := 0
deriving DecidableEq, Repr

/-- `VideoDefinition` from `src/slides.ts`. -/
structure VideoDefinition where
  width : ℚ
  height : ℚ
  autoPlay : Bool
  id : String
deriving DecidableEq, Repr

/-- `TableDefinition` from `src/slides.ts`: the row/column counts are
recomputed by the `tr_close` rule as rows accumulate. -/
structure TableDefinition where
  rows : Nat
  columns : Nat
  cells : List (List TextDefinition)
deriving DecidableEq, Repr

/-- `BodyDefinition` from `src/slides.ts`. -/
structure BodyDefinition where
  text : Option TextDefinition
  images : List ImageDefinition
  videos : List VideoDefinition
deriving DecidableEq, Repr

/-- `SlideDefinition` from `src/slides.ts`.  The `objectId` (a fresh UUID
per compile) and the `index` field are omitted: no claim depends on them and
the spec compares slide lists up to freshly generated identifiers. -/
structure SlideDefinition where
  customLayout : Option String := none
  title : Option TextDefinition := none
  subtitle : Option TextDefinition := none
  backgroundImage : Option ImageDefinition := none
  bodies : List BodyDefinition := []
  tables : List TableDefinition := []
  notes : Option TextDefinition := none
deriving DecidableEq, Repr

/-- `ListDefinition` from `src/slides.ts`: the open list-range capture. -/
structure ListDefinition where
  depth : Nat
  tag : String
  start : Nat
deriving DecidableEq, Repr

/-- One entry of the compiler style stack: the merged payload plus the
tentative start offset recorded when the scope opened.  The initial stack
entry `{}` of the source has no `start` key; it is modelled with `start := 0`,
which is observationally equivalent because a popped entry with an empty
payload is always discarded before its start offset is consulted. -/
structure StyleEntry where
  payload : StylePayload
  start : Nat
deriving DecidableEq, Repr

/-- The compiler state (`Context` in `src/env.ts`).  The style stack keeps
its top at the HEAD of the list (the source pushes/pops at the array end).
The stylesheet field `css` and the unused `listDepth`/`inlineHtmlContext`
fields are omitted: the modelled token stream carries no style attributes
and no raw-HTML tokens. -/
structure Context where
  slides : List SlideDefinition
  currentSlide : Option SlideDefinition
  text : Option TextDefinition
  styles : List StyleEntry
  markerParagraph : Bool
  row : List TextDefinition
  table : Option TableDefinition
  list : Option ListDefinition
  images : List ImageDefinition
  videos : List VideoDefinition
deriving DecidableEq, Repr

/-- `startSlide`: install a fresh, empty current slide. -/
def Context.startSlide (ctx : Context) : Context :=
  {ctx with currentSlide := some {}}

/-- The constructor `new Context(css)`: empty state, one empty style stack
entry, and `startSlide()` invoked. -/
def Context.initial : Context :=
  Context.startSlide
    { slides := [], currentSlide := none, text := none
      styles := [{payload := emptyPayload, start := 0}]
      markerParagraph := false, row := [], table := none, list := none
      images := [], videos := [] }

/-- `startTextBlock`: replace the current text block by a fresh empty one. -/
def Context.startTextBlock (ctx : Context) : Context :=
  {ctx with text := some {rawText := "", textRuns := [], listMarkers := [], big := false}}

/-- `appendText`: append to the current block; `assert(this.text)` becomes a
hard error when no block is open. -/
def Context.appendText (ctx : Context) (content : String) : Except String Context :=
  match ctx.text with
  | none => .error "assertion failed: text"
  | some t => .ok {ctx with text := some {t with rawText := t.rawText ++ content}}

/-- JavaScript whitespace as trimmed by `String.prototype.trim`, restricted
to the ASCII range (the model's strings): space, tab, line feed, carriage
return, vertical tab, form feed. -/
def jsIsWhitespace (c : Char) : Bool :=
  c = ' ' || c = '\t' || c = '\n' || c = '\r' || c = '\x0b' || c = '\x0c'

/-- `rawText.trim().length` is truthy exactly when some character is not
whitespace. -/
def hasNonBlankText (s : String) : Bool :=
  !(s.data.all jsIsWhitespace)

/-- `endSlide`: if a slide is open, flush any pending images/videos/non-blank
text as a final body, append the slide, then clear `currentSlide` and
`text`. -/
def Context.endSlide (ctx : Context) : Context :=
  match ctx.currentSlide with
  | none => {ctx with currentSlide := none, text := none}
  | some s =>
    if !ctx.images.isEmpty || !ctx.videos.isEmpty ||
        (match ctx.text with
         | some t => hasNonBlankText t.rawText
         | none => false) then
      {ctx with
        slides := ctx.slides ++
          [{s with bodies := s.bodies ++
            [{text := ctx.text, images := ctx.images, videos := ctx.videos}]}]
        images := [], videos := [], currentSlide := none, text := none}
    else
      {ctx with slides := ctx.slides ++ [s], currentSlide := none, text := none}

/-- `currentStyle`: the top of the style stack (`styles[styles.length-1]`).
On an empty stack the source would read `undefined`, which node-extend then
skips; this is modelled by the empty entry. -/
def Context.currentStyle (ctx : Context) : StyleEntry :=
  ctx.styles.headD {payload := emptyPayload, start := 0}

/-- `startStyle(newStyle)`: merge via `extend({}, newStyle, previousStyle)`
(the enclosing scope overrides the new style on conflicting keys), record the
current text length as the tentative start (`this.text?.rawText.length ?? 0`),
and push. -/
def Context.startStyle (ctx : Context) (newStyle : StylePayload) : Context :=
  let previousStyle := ctx.currentStyle
  let entry : StyleEntry :=
    { payload := extendPayload newStyle previousStyle.payload
      start := (ctx.text.map fun t => t.rawText.length).getD 0 }
  {ctx with styles := entry :: ctx.styles}

/-- The candidate test `_.matches(style)` used by `endStyle` for duplicate
detection: the candidate run must agree with the popped style on `start`,
`end` and every style key the popped style sets (the candidate may set
more keys). -/
def runMatches (src : StyleRun) (cand : StyleRun) : Bool :=
  cand.start == src.start && cand.stop == src.stop &&
    payloadMatches src.payload cand.payload

/-- `endStyle()`: pop the style stack (`assert(style)` on an empty stack is a
hard error), close the range at the current text length and push the run into
the current block unless (a) there is no current block, (b) the range is
empty, (c) no style key is set, or (d) an existing run matches it. -/
def Context.endStyle (ctx : Context) : Except String Context :=
  match ctx.styles with
  | [] => .error "assertion failed: style"
  | entry :: rest =>
    let c := {ctx with styles := rest}
    match c.text with
    | none => .ok c
    | some t =>
      let run : StyleRun := {start := entry.start, stop := t.rawText.length, payload := entry.payload}
      if run.start = run.stop then .ok c
      else if payloadIsEmpty run.payload then .ok c
      else if t.textRuns.any fun r => runMatches run r then .ok c
      else .ok {c with text := some {t with textRuns := t.textRuns ++ [run]}}

/-- The markdown-it token kinds consumed by the compiler rules modelled here
(`src/extract_slides.ts`).  Token attributes are modelled as already-parsed
fields: `big` is `hasClass(token, 'big')`, `column` is
`hasClass(token, 'column')`, `layout` is `attr(token, 'layout')`,
`background` is `hasClass(token, 'background')`.  Tokens in this model carry
no inline `style` attribute, so `applyTokenStyle` reduces to the identity on
the base style each rule supplies.  `listOpen`/`listClose` cover both
`bullet_list_open`/`ordered_list_open` and their closes (the source installs
one handler for both, branching on `token.tag`, which is `"ul"` or `"ol"`);
`tdClose` also covers `th_close` (same handler).  `unknown` stands for any
token kind without a dispatch entry, which the source ignores. -/
inductive Token where
  | hr
  | headingOpen (tag : String) (big : Bool)
  | headingClose (tag : String)
  | inlineText (content : String)
  | paragraphOpen (column : Bool) (layout : Option String)
  | paragraphClose
  | listOpen (tag : String)
  | listClose (tag : String)
  | listItemOpen
  | listItemClose
  | tableOpen
  | tableClose
  | trOpen
  | trClose
  | tdOpen
  | thOpen
  | tdClose
  | videoTok (service : String) (videoID : String)
  | imageTok (url : Option String) (background : Bool) (padding offsetX offsetY : ℚ)
  | unknown (kind : String)
deriving DecidableEq, Repr

/-- The base style of the `td_open` rule: table cells are given the theme
primary text color. -/
def tdOpenStyle : StylePayload := {foregroundColor := some (Color.theme "TEXT1")}

/-- The base style of the `th_open` rule: bold plus the theme primary text
color. -/
def thOpenStyle : StylePayload :=
  {bold := some true, foregroundColor := some (Color.theme "TEXT1")}

/-- One step of the compiler: `processMarkdownToken` specialised to the rule
table of `src/extract_slides.ts`.  Thrown exceptions and failed `assert`s
become `.error`.  In the `heading_close` rule the source stores the shared
reference `context.text` into the slide BEFORE `endStyle()` mutates it; the
model applies `endStyle` first and then stores the updated block, which is
the same observable outcome. -/
def processTokenModel (token : Token) (ctx : Context) : Except String Context :=
  match token with
  | .hr => .ok (ctx.endSlide.startSlide)
  | .headingOpen _tag big =>
    let c := (ctx.startTextBlock).startStyle emptyPayload
    .ok {c with text := c.text.map fun t => {t with big := big}}
  | .headingClose tag =>
    match ctx.currentSlide with
    | none => .error "assertion failed: currentSlide"
    | some s => do
      let c ← ctx.endStyle
      let c :=
        if tag = "h1" then {c with currentSlide := some {s with title := c.text}}
        else if tag = "h2" then {c with currentSlide := some {s with subtitle := c.text}}
        else c
      .ok c.startTextBlock
  | .inlineText content => do
    let c ← (ctx.startStyle emptyPayload).appendText content
    c.endStyle
  | .paragraphOpen column layout =>
    match ctx.currentSlide with
    | none => .error "assertion failed: currentSlide"
    | some s =>
      let c :=
        if column then
          let body : BodyDefinition := {text := ctx.text, images := ctx.images, videos := ctx.videos}
          ({ctx with
              markerParagraph := true
              images := []
              videos := []
              currentSlide := some {s with bodies := s.bodies ++ [body]}}).startTextBlock
        else if ctx.text.isNone then ctx.startTextBlock
        else ctx
      match layout with
      | some l =>
        if l ≠ "" then
          .ok {c with currentSlide := c.currentSlide.map fun s => {s with customLayout := some l}}
        else .ok c
      | none => .ok c
  | .paragraphClose =>
    if ctx.markerParagraph then .ok {ctx with markerParagraph := false}
    else ctx.appendText "\n"
  | .listOpen tag =>
    match ctx.text with
    | none => .error "assertion failed: text"
    | some t =>
      let c := ctx.startStyle emptyPayload
      match ctx.list with
      | some l =>
        if l.tag ≠ tag then .error "Nested lists must match parent style"
        else .ok {c with list := some {l with depth := l.depth + 1}}
      | none => .ok {c with list := some {depth := 0, tag := tag, start := t.rawText.length}}
  | .listClose tag =>
    match ctx.list, ctx.text with
    | none, _ => .error "assertion failed: list"
    | _, none => .error "assertion failed: text"
    | some l, some t =>
      let c :=
        if l.depth = 0 then
          {ctx with
            list := none
            text := some {t with listMarkers := t.listMarkers ++
              [{start := l.start, stop := t.rawText.length,
                type := if tag = "ul" then "unordered" else "ordered"}]}}
        else {ctx with list := some {l with depth := l.depth - 1}}
      c.endStyle
  | .listItemOpen =>
    match ctx.list with
    | none => .error "assertion failed: list"
    | some l =>
      (ctx.startStyle emptyPayload).appendText (String.mk (List.replicate l.depth '\t'))
  | .listItemClose => ctx.endStyle
  | .tableOpen =>
    .ok {ctx.startStyle emptyPayload with table := some {rows := 0, columns := 0, cells := []}}
  | .tableClose =>
    match ctx.currentSlide, ctx.table with
    | none, _ => .error "assertion failed: currentSlide"
    | _, none => .error "assertion failed: table"
    | some s, some tbl =>
      ({ctx with currentSlide := some {s with tables := s.tables ++ [tbl]}}).endStyle
  | .trOpen => .ok {ctx.startStyle emptyPayload with row := []}
  | .trClose =>
    match ctx.table with
    | none => .error "assertion failed: table"
    | some tbl =>
      let cells := tbl.cells ++ [ctx.row]
      let tbl2 : TableDefinition :=
        {rows := cells.length, columns := max tbl.columns ctx.row.length, cells := cells}
      ({ctx with table := some tbl2}).endStyle
  | .tdOpen => .ok ((ctx.startStyle tdOpenStyle).startTextBlock)
  | .thOpen => .ok ((ctx.startStyle thOpenStyle).startTextBlock)
  | .tdClose =>
    match ctx.text with
    | none => .error "assertion failed: text"
    | some _ => do
      let c ← ctx.endStyle
      match c.text with
      | none => .error "assertion failed: text"
      | some t => .ok ({c with row := c.row ++ [t]}).startTextBlock
  | .videoTok service videoID =>
    if service ≠ "youtube" then .error "Only YouTube videos allowed"
    else .ok {ctx with videos := ctx.videos ++
      [{width := 1600, height := 900, autoPlay := true, id := videoID}]}
  | .imageTok url background padding offsetX offsetY =>
    match ctx.currentSlide with
    | none => .error "assertion failed: currentSlide"
    | some s =>
      let image : ImageDefinition :=
        {url := url, width := 0, height := 0, padding := padding,
         offsetX := offsetX, offsetY := offsetY}
      if background then
        .ok {ctx with currentSlide := some {s with backgroundImage := some image}}
      else .ok {ctx with images := ctx.images ++ [image]}
  | .unknown _ => .ok ctx

/-- Process a token list in order with no index-0 special case. -/
def processTokenList (tokens : List Token) (ctx : Context) : Except String Context :=
  tokens.foldlM (fun c t => processTokenModel t c) ctx

/-- `processTokens`: skip a leading `hr` token (stream position 0), then
process every remaining token in order. -/
def processTokensModel (tokens : List Token) (ctx : Context) : Except String Context :=
  match tokens with
  | .hr :: rest => processTokenList rest ctx
  | _ => processTokenList tokens ctx

/-- `extractSlides`: run the token stream from the initial context, then
`context.done()` (i.e. `endSlide`) and return the accumulated slides. -/
def extractSlidesModel (tokens : List Token) : Except String (List SlideDefinition) :=
  (processTokensModel tokens Context.initial).map fun c => c.endSlide.slides

/-- Layout metadata of the target presentation
(`layoutProperties.name` / `layoutProperties.displayName`); either field may
be absent in the API schema. -/
structure LayoutInfo where
  name : Option String := none
  displayName : Option String := none
deriving DecidableEq, Repr

/-- The part of `Schema$Presentation` the classifier consults.  An absent
`layouts` array behaves exactly like an empty one in the source
(`presentation.layouts?.find` yields `undefined` either way), so a plain
list is used. -/
structure Presentation where
  layouts : List LayoutInfo := []
deriving DecidableEq, Repr

/-- `hasText` (`src/layout/match_layout.ts`): the block exists and its raw
text is non-empty. -/
def hasText (text : Option TextDefinition) : Bool :=
  match text with
  | some t => t.rawText.length > 0
  | none => false

/-- `hasBigTitle`. -/
def hasBigTitle (slide : SlideDefinition) : Bool :=
  hasText slide.title && (slide.title.map fun t => t.big).getD false

/-- `hasTextContent`: the slide has at least one body region. -/
def hasTextContent (slide : SlideDefinition) : Bool :=
  slide.bodies.length != 0

/-- `hasContent`: anything which takes up the main body space. -/
def hasContent (slide : SlideDefinition) : Bool :=
  slide.bodies.length != 0 || slide.tables.length != 0

/-- The ordered predicate table built by the `defineLayout` calls at the
bottom of `src/layout/match_layout.ts`; first match wins. -/
def layoutsTable : List (String × (SlideDefinition → Bool)) :=
  [("TITLE", fun slide => hasText slide.title && hasText slide.subtitle && !hasContent slide),
   ("MAIN_POINT", fun slide => hasBigTitle slide && !hasContent slide),
   ("SECTION_HEADER", fun slide =>
      hasText slide.title && !hasText slide.subtitle && !hasContent slide),
   ("SECTION_TITLE_AND_DESCRIPTION", fun slide =>
      hasText slide.title && hasText slide.subtitle && hasTextContent slide),
   ("BIG_NUMBER", fun slide => hasBigTitle slide && hasTextContent slide),
   ("TITLE_AND_TWO_COLUMNS", fun slide => hasText slide.title && slide.bodies.length == 2),
   ("TITLE_AND_BODY", fun slide => hasText slide.title || slide.bodies.length != 0),
   ("BLANK", fun _ => true)]

/-- The fallback path of `matchLayout`: scan the ordered predicate list and
throw when nothing matches. -/
def defaultMatchLayout (slide : SlideDefinition) : Except String String :=
  match layoutsTable.find? fun p => p.2 slide with
  | some p => .ok p.1
  | none => .error "Failed to match layout for slide"

/-- The override-resolution step of `matchLayout`
(`src/layout/match_layout.ts`): exact display-name lookup of `customLayout`
against the presentation layout list; the layout name is adopted only when
`layoutProperties.name` is present and truthy (an empty string is falsy and
skipped). -/
def resolveOverride (presentation : Presentation) (cl : String) : Option String :=
  match presentation.layouts.find? fun l => l.displayName == some cl with
  | none => none
  | some l =>
    match l.name with
    | none => none
    | some n => if n = "" then none else some n

/-- `matchLayout` (`src/layout/match_layout.ts`), reduced to the selected
layout name (the returned `GenericLayout` wraps that name, the presentation
and the slide).  `layoutName` is adopted from the override when one is set
and resolves; otherwise — including every unresolved override — control
falls through to the ordered predicate list. -/
def matchLayoutName (presentation : Presentation) (slide : SlideDefinition) :
    Except String String :=
  let byOverride : Option String :=
    match slide.customLayout with
    | none => none
    | some cl => resolveOverride presentation cl
  match byOverride with
  | some n => .ok n
  | none => defaultMatchLayout slide

/-- The edit operations emitted by `GenericLayout`, reduced to the payload
fields the claims are about; object identifiers and other location
properties (`locationProps`) are omitted. -/
inductive Request where
  | insertText (text : String)
  | updateTextStyle (startIndex endIndex : Nat) (style : StylePayload) (fields : List StyleKey)
  | createParagraphBullets (startIndex endIndex : Nat) (bulletPreset : String)
  | createImage (width height translateX translateY : ℚ) (url : Option String)
  | createVideo (id : String) (width height translateX translateY : ℚ)
  | updateVideoProperties (autoPlay : Bool)
  | createTable (rows columns : Nat)
deriving DecidableEq, Repr

/-- The key order of the `style` object literal built by
`appendInsertTextRequests`; `Object.keys` reflects this insertion order and
`computeShallowFieldMask` iterates it. -/
def maskKeyOrder : List StyleKey :=
  [.bold, .italic, .foregroundColor, .backgroundColor, .strikethrough,
   .underline, .smallCaps, .fontFamily, .fontSize, .link, .baselineOffset]

/-- `computeShallowFieldMask`: the keys of the style object whose values are
defined, in object-key order (the source joins them with commas; the list is
kept here, an empty mask being the empty list). -/
def computeShallowFieldMask (p : StylePayload) : List StyleKey :=
  maskKeyOrder.filter fun k => (p.get k).isSome

/-- The `updateTextStyle` request built (or skipped) for one text run inside
`appendInsertTextRequests`: emitted only when the computed field mask is
non-empty. -/
def styleRequestFor (run : StyleRun) : Option Request :=
  let fields := computeShallowFieldMask run.payload
  if fields.isEmpty then none
  else some (Request.updateTextStyle run.start run.stop run.payload fields)

/-- The `createParagraphBullets` request built for one list marker. -/
def bulletRequestFor (m : ListMarker) : Request :=
  Request.createParagraphBullets m.start m.stop
    (if m.type = "ordered" then "NUMBERED_DIGIT_ALPHA_ROMAN" else "BULLET_DISC_CIRCLE_SQUARE")

/-- `GenericLayout.appendInsertTextRequests`: one `insertText`, then one
`updateTextStyle` per text run whose field mask is non-empty, then one
`createParagraphBullets` per list marker, iterating `_.reverse(listMarkers)`.
Lodash `_.reverse` REVERSES ITS ARGUMENT IN PLACE, so the function returns
both the emitted requests and the text block as it stands afterwards (its
`listMarkers` array reversed). -/
def appendInsertTextRequests (text : TextDefinition) : List Request × TextDefinition :=
  let styleRequests := text.textRuns.filterMap styleRequestFor
  let reversedMarkers := text.listMarkers.reverse
  let bulletRequests := reversedMarkers.map bulletRequestFor
  (Request.insertText text.rawText :: styleRequests ++ bulletRequests,
   {text with listMarkers := reversedMarkers})

/-- A bounding box as produced by `getBodyBoundingBox` (placeholder geometry
or the full page). -/
structure BoundingBox where
  height : ℚ
  width : ℚ
  x : ℚ
  y : ℚ
deriving DecidableEq, Repr

/-- One item of the packed arrangement returned by `layer.export()` of the
external `layout` npm package: a packed offset plus the original image as
`meta`.  The packing algorithm itself is external to the repository; the
generator consumes its output only through these fields. -/
structure PackedItem where
  x : ℚ
  y : ℚ
  meta : ImageDefinition
deriving DecidableEq, Repr

/-- The packed arrangement (`layer.export()`): overall packed width/height
and the packed items. -/
structure ComputedLayout where
  width : ℚ
  height : ℚ
  items : List PackedItem
deriving DecidableEq, Repr

/-- The single uniform scale factor of `appendCreateImageRequests`:
`Math.min(box.width / computedLayout.width, box.height / computedLayout.height)`. -/
def imageScaleFactor (box : BoundingBox) (computedLayout : ComputedLayout) : ℚ :=
  min (box.width / computedLayout.width) (box.height / computedLayout.height)

/-- The `createImage` request built for one packed item inside the loop of
`appendCreateImageRequests`: size is the image natural size times the scale
factor; position is the centered base translation plus the scaled packed
offset, per-item padding and explicit offsets.  (The truthiness guards
`item.meta.offsetX ? item.meta.offsetX : 0` are identities over numbers
since the falsy number is 0.) -/
def createImageRequest (box : BoundingBox) (computedLayout : ComputedLayout)
    (item : PackedItem) : Request :=
  let r := imageScaleFactor box computedLayout
  let baseTranslateX := box.x + (box.width - computedLayout.width * r) / 2
  let baseTranslateY := box.y + (box.height - computedLayout.height * r) / 2
  Request.createImage (item.meta.width * r) (item.meta.height * r)
    (baseTranslateX + (item.x + item.meta.padding + item.meta.offsetX) * r)
    (baseTranslateY + (item.y + item.meta.padding + item.meta.offsetY) * r)
    item.meta.url

/-- `GenericLayout.appendCreateImageRequests`, given the packed arrangement
`layer.export()` produced from the body images: one `createImage` per packed
item. -/
def appendCreateImageRequests (box : BoundingBox) (computedLayout : ComputedLayout) :
    List Request :=
  computedLayout.items.map (createImageRequest box computedLayout)

/-- The size fields of a `createImage` request. -/
def Request.imageSize : Request → Option (ℚ × ℚ)
  | .createImage width height _ _ _ => some (width, height)
  | _ => none

/-- `GenericLayout.appendCreateVideoRequests`: more than one video is a hard
error; otherwise a centered, aspect-preserving `createVideo` plus the
`autoPlay` property update.  Reading `videos[0]` of an empty array would be
a crash in the source (the caller only invokes this with a non-empty list);
it is a hard error here. -/
def appendCreateVideoRequests (videos : List VideoDefinition) (box : BoundingBox) :
    Except String (List Request) :=
  if videos.length > 1 then .error "Multiple videos per slide are not supported."
  else
    match videos.head? with
    | none => .error "assertion failed: video"
    | some video =>
      let r := min (box.width / video.width) (box.height / video.height)
      .ok [Request.createVideo video.id (video.width * r) (video.height * r)
             (box.x + (box.width - video.width * r) / 2)
             (box.y + (box.height - video.height * r) / 2),
           Request.updateVideoProperties video.autoPlay]

/-- `GenericLayout.appendCreateTableRequests`: more than one table is a hard
error; otherwise one `createTable` followed by the text-population requests
of every cell in row-major order.  (The in-place marker reversal performed
by `appendInsertTextRequests` on each cell is dropped here; only the emitted
requests are returned.) -/
def appendCreateTableRequests (tables : List TableDefinition) :
    Except String (List Request) :=
  if tables.length > 1 then .error "Multiple tables per slide are not supported."
  else
    match tables.head? with
    | none => .error "assertion failed: table"
    | some table =>
      .ok (Request.createTable table.rows table.columns ::
        (table.cells.map fun row =>
          (row.map fun cell => (appendInsertTextRequests cell).1).flatten).flatten)

/-- Character-list worker for `camelize`. -/
def camelizeChars : List Char → List Char
  | [] => []
  | '-' :: c :: rest =>
    if c.isLower then c.toUpper :: camelizeChars rest
    else '-' :: camelizeChars (c :: rest)
  | c :: rest => c :: camelizeChars rest

/-- `camelize` (`src/extract_slides.js`): replace every hyphen followed by a
lowercase letter with that letter uppercased.  The TypeScript
`normalizeKeys` uses `_.camelCase` instead, which agrees with this on the
hyphen-separated lowercase property names CSS rules use
(`text-decoration` ↦ `textDecoration`, `font-weight` ↦ `fontWeight`, …). -/
def camelize (s : String) : String :=
  String.mk (camelizeChars s.data)

/-- A CSS rule: the property/value entries of one declaration block, in
declaration order (`Object.entries` of the converted rule object). -/
def CssRule := List (String × String)

/-- The first run of consecutive digits in a string, if any: the value
captured by the font-size pattern `/(\d+)(?:pt)?/` and fed to `parseInt`. -/
def firstDigitRun : List Char → Option Nat
  | [] => none
  | c :: rest =>
    if c.isDigit then
      let digits := (c :: rest).takeWhile Char.isDigit
      some (String.mk digits).toNat!
    else firstDigitRun rest

/-- `updateStyleDefinition` (`src/parser/css.ts`), parameterised by the
external `parse-color` wrapper `parseColorString` (`parseColorFn` here;
it yields `none` for unparsable colors, and the source then stores
`undefined`, i.e. clears the field).  Keys are normalized by camel-casing
and dispatched by a switch; the source contains a second, DUPLICATE
`case 'fontStyle'` clause checking for the values `underline` and
`line-through` — duplicate `case` labels are unreachable in JavaScript, so
only the `italic` check of the first clause runs, and no key
`textDecoration` is handled anywhere: such entries fall to the `default`
(log-and-ignore) branch.  An unparsable `font-size` value executes `return`,
abandoning the remaining entries (the mutations already made persist). -/
def updateStyleDefinition (parseColorFn : String → Option Color) :
    CssRule → StylePayload → StylePayload
  | [], style => style
  | (key, value) :: rest, style =>
    let k := camelize key
    if k = "color" then
      updateStyleDefinition parseColorFn rest {style with foregroundColor := parseColorFn value}
    else if k = "backgroundColor" then
      updateStyleDefinition parseColorFn rest {style with backgroundColor := parseColorFn value}
    else if k = "fontWeight" then
      updateStyleDefinition parseColorFn rest
        (if value = "bold" then {style with bold := some true} else style)
    else if k = "fontStyle" then
      updateStyleDefinition parseColorFn rest
        (if value = "italic" then {style with italic := some true} else style)
    else if k = "fontFamily" then
      updateStyleDefinition parseColorFn rest {style with fontFamily := some value}
    else if k = "fontVariant" then
      updateStyleDefinition parseColorFn rest
        (if value = "small-caps" then {style with smallCaps := some true} else style)
    else if k = "fontSize" then
      match firstDigitRun value.data with
      | none => style
      | some n => updateStyleDefinition parseColorFn rest {style with fontSize := some n}
    else
      updateStyleDefinition parseColorFn rest style

/-- Property lookup of `convertCssRule` (`src/extract_slides.js`):
`rule[name] || rule[camelize(name)]` — the raw name first, then the
camel-cased name; an empty string value is falsy and treated as absent. -/
def cssLookup (rule : CssRule) (name : String) : Option String :=
  let raw := (List.find? (fun e => e.1 = name) rule).map Prod.snd
  let v := pick (raw.filter fun s => s ≠ "") none
  match v with
  | some s => some s
  | none => ((List.find? (fun e => e.1 = camelize name) rule).map Prod.snd).filter fun s => s ≠ ""

/-- `convertCssRule` (`src/extract_slides.js`): the original JavaScript
style resolver, which checks a fixed list of properties including
`text-decoration` (underline / line-through). -/
def convertCssRule (parseColorFn : String → Option Color) (rule : CssRule)
    (style0 : StylePayload) : StylePayload :=
  let s := style0
  let s := match cssLookup rule "color" with
    | some v => {s with foregroundColor := parseColorFn v}
    | none => s
  let s := match cssLookup rule "background-color" with
    | some v => {s with backgroundColor := parseColorFn v}
    | none => s
  let s := match cssLookup rule "font-weight" with
    | some v => if v = "bold" then {s with bold := some true} else s
    | none => s
  let s := match cssLookup rule "font-style" with
    | some v => if v = "italic" then {s with italic := some true} else s
    | none => s
  let s := match cssLookup rule "text-decoration" with
    | some v =>
      if v = "underline" then {s with underline := some true}
      else if v = "line-through" then {s with strikethrough := some true}
      else s
    | none => s
  let s := match cssLookup rule "font-family" with
    | some v => {s with fontFamily := some v}
    | none => s
  let s := match cssLookup rule "font-variant" with
    | some v => if v = "small-caps" then {s with smallCaps := some true} else s
    | none => s
  let s := match cssLookup rule "font-size" with
    | some v =>
      match firstDigitRun v.data with
      | some n => {s with fontSize := some n}
      | none => s
    | none => s
  s

/-! ### Helper lemmas -/

/-- `pick` commutes with `Option.map`. -/
theorem pick_map {α β : Type} (f : α → β) (a b : Option α) :
    pick (a.map f) (b.map f) = (pick a b).map f := by
  cases a <;> rfl

/-- Reading a key of the merged payload is `pick` of the two reads, the
previous (outer) style first. -/
theorem get_extendPayload (newStyle previousStyle : StylePayload) (k : StyleKey) :
    (extendPayload newStyle previousStyle).get k =
      pick (previousStyle.get k) (newStyle.get k) := by
  cases k <;> simp [extendPayload, StylePayload.get, pick_map]

/-- `subsumes` holds between a value and itself. -/
theorem subsumes_self (o : Option StyleValue) : subsumes o o = true := by
  cases o <;> simp [subsumes]

/-- A payload always matches itself. -/
theorem payloadMatches_self (p : StylePayload) : payloadMatches p p = true := by
  simp [payloadMatches, List.all_eq_true, subsumes_self]

/-- The last entry of the classifier table is `BLANK` with the constantly
true predicate. -/
theorem blank_mem_layoutsTable :
    ("BLANK", (fun _ : SlideDefinition => true)) ∈ layoutsTable := by
  unfold layoutsTable
  exact .tail _ (.tail _ (.tail _ (.tail _ (.tail _ (.tail _ (.tail _ (.head _)))))))

/-- The fallback classifier never fails: the final catch-all predicate
matches every slide. -/
theorem defaultMatchLayout_isOk (slide : SlideDefinition) :
    ∃ name, defaultMatchLayout slide = .ok name := by
  unfold defaultMatchLayout
  rcases h : layoutsTable.find? fun p => p.2 slide with _ | p
  · exfalso
    have := List.find?_eq_none.mp h _ blank_mem_layoutsTable
    simp at this
  · exact ⟨p.1, by rw [h]⟩

/-! ### C1 — classifier: title + subtitle + body classifies as
SECTION_TITLE_AND_DESCRIPTION -/

/-- C1: every compiled slide with a non-empty title, a non-empty subtitle
and at least one body region, carrying no named-template override, is
classified as the "section title+description" template and never as the
"title" template (rule 4 applies; the title-only rule is disabled by the
body content). -/
theorem matchLayout_title_subtitle_body (presentation : Presentation)
    (slide : SlideDefinition) (hover : slide.customLayout = none)
    (htitle : hasText slide.title = true) (hsub : hasText slide.subtitle = true)
    (hbody : slide.bodies ≠ []) :
    matchLayoutName presentation slide = .ok "SECTION_TITLE_AND_DESCRIPTION" ∧
      matchLayoutName presentation slide ≠ .ok "TITLE" := by
  have hlen : slide.bodies.length ≠ 0 := by
    simpa [List.length_eq_zero] using hbody
  have hcontent : hasContent slide = true := by
    simp [hasContent, hlen]
  have htc : hasTextContent slide = true := by
    simp [hasTextContent, hlen]
  have hmain : matchLayoutName presentation slide = .ok "SECTION_TITLE_AND_DESCRIPTION" := by
    unfold matchLayoutName
    rw [hover]
    simp [defaultMatchLayout, layoutsTable, List.find?, htitle, hsub, hcontent, htc]
  exact ⟨hmain, by simp [hmain]⟩

/-- Concrete instance for `matchLayout_title_subtitle_body`: a slide with
title "T", subtitle "S" and one body region. -/
def c1Slide : SlideDefinition :=
  { title := some {rawText := "T", textRuns := [], listMarkers := [], big := false}
    subtitle := some {rawText := "S", textRuns := [], listMarkers := [], big := false}
    bodies := [{text := none, images := [], videos := []}] }

/-- Witness for C1 at `c1Slide` and an empty presentation. -/
theorem matchLayout_title_subtitle_body_witness :
    matchLayoutName {layouts := []} c1Slide = .ok "SECTION_TITLE_AND_DESCRIPTION" ∧
      matchLayoutName {layouts := []} c1Slide ≠ .ok "TITLE" :=
  matchLayout_title_subtitle_body {layouts := []} c1Slide (by decide) (by decide)
    (by decide) (by decide)

/-! ### C2 — unresolved named-template override -/

/-- A presentation with no layouts at all. -/
def c2Presentation : Presentation := {layouts := []}

/-- A slide whose named-template override matches nothing and which triggers
no classifier rule before the catch-all. -/
def c2Slide : SlideDefinition := {customLayout := some "Missing Template"}

/-- C2 counterexample: with an override that matches no display name,
`matchLayout` does NOT fail: it silently falls back to the ordered predicate
list and returns the catch-all `BLANK` template. -/
theorem matchLayout_unresolved_override_counterexample :
    matchLayoutName c2Presentation c2Slide = .ok "BLANK" := by rfl

/-- C2 amended: when the override resolves to no layout by display name,
`matchLayout` falls back to the ordered predicate list, and — because the
catch-all `BLANK` rule matches every slide — returns some template rather
than failing. -/
theorem matchLayout_unresolved_override_falls_back (presentation : Presentation)
    (slide : SlideDefinition) (cl : String) (hover : slide.customLayout = some cl)
    (hmiss : presentation.layouts.find? (fun l => l.displayName == some cl) = none) :
    matchLayoutName presentation slide = defaultMatchLayout slide ∧
      ∃ name, matchLayoutName presentation slide = .ok name := by
  have hres : resolveOverride presentation cl = none := by
    unfold resolveOverride
    rw [hmiss]
  have hmain : matchLayoutName presentation slide = defaultMatchLayout slide := by
    unfold matchLayoutName
    rw [hover]
    show (match resolveOverride presentation cl with
      | some n => Except.ok n
      | none => defaultMatchLayout slide) = defaultMatchLayout slide
    rw [hres]
  obtain ⟨name, hname⟩ := defaultMatchLayout_isOk slide
  exact ⟨hmain, name, hmain ▸ hname⟩

/-- Witness for the amended C2 at the concrete unresolved override. -/
theorem matchLayout_unresolved_override_falls_back_witness :
    matchLayoutName c2Presentation c2Slide = defaultMatchLayout c2Slide ∧
      ∃ name, matchLayoutName c2Presentation c2Slide = .ok name :=
  matchLayout_unresolved_override_falls_back c2Presentation c2Slide
    "Missing Template" (by decide) (by decide)

/-! ### C3 — nested style scopes: which side wins on conflicting keys -/

/-- A context with an open (empty) text block, as after a paragraph opens. -/
def c3Context : Context := Context.initial.startTextBlock

/-- C3 counterexample: open an outer scope setting `fontFamily` to
"Courier New" and an inner scope setting `fontFamily` to "Arial"; the style
in effect inside the inner scope carries the OUTER value, not the child one
(`extend({}, newStyle, previousStyle)` gives the previous style
precedence). -/
theorem startStyle_child_does_not_override_counterexample :
    (((c3Context.startStyle {fontFamily := some "Courier New"}).startStyle
        {fontFamily := some "Arial"}).currentStyle.payload.fontFamily =
      some "Courier New") ∧
      (((c3Context.startStyle {fontFamily := some "Courier New"}).startStyle
          {fontFamily := some "Arial"}).currentStyle.payload.fontFamily ≠
        some "Arial") := by decide

/-- C3 amended: inside a nested scope the merged payload carries the OUTER
scope's value for every key the outer scope sets; the child's value for a
key takes effect only when no enclosing scope sets that key. -/
theorem startStyle_parent_overrides_child (ctx : Context) (newStyle : StylePayload)
    (k : StyleKey) :
    (∀ v, (ctx.currentStyle).payload.get k = some v →
      ((ctx.startStyle newStyle).currentStyle).payload.get k = some v) ∧
      ((ctx.currentStyle).payload.get k = none →
        ((ctx.startStyle newStyle).currentStyle).payload.get k = newStyle.get k) := by
  have hcur : ((ctx.startStyle newStyle).currentStyle).payload =
      extendPayload newStyle (ctx.currentStyle).payload := rfl
  constructor
  · intro v hv
    rw [hcur, get_extendPayload, hv]
    rfl
  · intro hn
    rw [hcur, get_extendPayload, hn]
    rfl

/-- Witness for the amended C3: the outer "Courier New" survives into the
inner scope. -/
theorem startStyle_parent_overrides_child_witness :
    ((((c3Context.startStyle {fontFamily := some "Courier New"}).startStyle
        {fontFamily := some "Arial"}).currentStyle).payload.get .fontFamily =
      some (.s "Courier New")) :=
  (startStyle_parent_overrides_child
    (c3Context.startStyle {fontFamily := some "Courier New"})
    {fontFamily := some "Arial"} .fontFamily).1 (.s "Courier New") (by decide)

/-! ### C5 — text-decoration handling in the style resolvers -/

/-- C5: in the TypeScript resolver `updateStyleDefinition`
(`src/parser/css.ts`), a rule `text-decoration: underline` (resp.
`line-through`) leaves the payload unchanged — the normalized key
`textDecoration` is handled by no switch case (the value checks for
`underline`/`line-through` sit in a duplicate, unreachable `case
'fontStyle'` clause) and falls to the ignore branch.  The original
JavaScript resolver `convertCssRule` (`src/extract_slides.js`) recognizes
the property and sets `underline` (resp. `strikethrough`), evidencing the
intended behaviour. -/
theorem updateStyleDefinition_drops_text_decoration
    (parseColorFn : String → Option Color) :
    updateStyleDefinition parseColorFn [("text-decoration", "underline")] emptyPayload
        = emptyPayload ∧
      updateStyleDefinition parseColorFn [("text-decoration", "line-through")] emptyPayload
        = emptyPayload ∧
      (convertCssRule parseColorFn [("text-decoration", "underline")] emptyPayload).underline
        = some true ∧
      (convertCssRule parseColorFn [("text-decoration", "line-through")] emptyPayload).strikethrough
        = some true := by
  refine ⟨rfl, rfl, rfl, rfl⟩

/-! ### C6 — box-packing scale law -/

/-- C6: for images with zero padding and zero explicit offsets packed into a
container, the generator computes the single uniform scale factor
`min(container.width / packedWidth, container.height / packedHeight)`, and
every emitted `createImage` operation carries the image natural size
multiplied by that factor. -/
theorem createImage_scale_law (box : BoundingBox) (computedLayout : ComputedLayout)
    (_hzero : ∀ item ∈ computedLayout.items,
      item.meta.padding = 0 ∧ item.meta.offsetX = 0 ∧ item.meta.offsetY = 0) :
    imageScaleFactor box computedLayout =
        min (box.width / computedLayout.width) (box.height / computedLayout.height) ∧
      appendCreateImageRequests box computedLayout =
        computedLayout.items.map (createImageRequest box computedLayout) ∧
      ∀ item ∈ computedLayout.items,
        (createImageRequest box computedLayout item).imageSize =
          some (item.meta.width * imageScaleFactor box computedLayout,
            item.meta.height * imageScaleFactor box computedLayout) :=
  ⟨rfl, rfl, fun _ _ => rfl⟩

/-- Concrete packed arrangement for the C6 witness: one 20×10 image at the
packed origin, packed extent 20×10, container 100×50 at the origin. -/
def c6Image : ImageDefinition :=
  {url := none, width := 20, height := 10, padding := 0, offsetX := 0, offsetY := 0}

/-- The packed arrangement for the C6 witness. -/
def c6Layout : ComputedLayout :=
  {width := 20, height := 10, items := [{x := 0, y := 0, meta := c6Image}]}

/-- The C6 container box. -/
def c6Box : BoundingBox := {height := 50, width := 100, x := 0, y := 0}

/-- Witness for C6 at the concrete arrangement: the factor is
min(100/20, 50/10) = 5 and the emitted size is 20×5 by 10×5. -/
theorem createImage_scale_law_witness :
    imageScaleFactor c6Box c6Layout = min (c6Box.width / c6Layout.width)
        (c6Box.height / c6Layout.height) ∧
      (∀ item ∈ c6Layout.items,
        (createImageRequest c6Box c6Layout item).imageSize =
          some (item.meta.width * imageScaleFactor c6Box c6Layout,
            item.meta.height * imageScaleFactor c6Box c6Layout)) ∧
      imageScaleFactor c6Box c6Layout = 5 := by
  have h := createImage_scale_law c6Box c6Layout (by simp [c6Layout, c6Image])
  refine ⟨h.1, h.2.2, ?_⟩
  norm_num [imageScaleFactor, c6Box, c6Layout, min_def]

/-! ### C9 — multiple tables / videos per slide -/

/-- Token stream carrying two one-cell tables on one slide. -/
def c9Tokens : List Token :=
  [.tableOpen, .trOpen, .tdOpen, .inlineText "a", .tdClose, .trClose, .tableClose,
   .tableOpen, .trOpen, .tdOpen, .inlineText "b", .tdClose, .trClose, .tableClose]

/-- C9: more than one table and more than one video per slide are hard
errors at generation time (the corresponding request builders throw and
produce no batch), while compilation itself accepts such slides — the
two-table token stream compiles into one slide carrying two tables. -/
theorem generation_rejects_multiple_tables_and_videos :
    (∀ tables : List TableDefinition, 1 < tables.length →
      appendCreateTableRequests tables =
        .error "Multiple tables per slide are not supported.") ∧
      (∀ (videos : List VideoDefinition) (box : BoundingBox), 1 < videos.length →
        appendCreateVideoRequests videos box =
          .error "Multiple videos per slide are not supported.") ∧
      (extractSlidesModel c9Tokens).map (fun slides => slides.map fun s => s.tables.length)
        = .ok [2] := by
  refine ⟨fun tables h => ?_, fun videos box h => ?_, by rfl⟩
  · unfold appendCreateTableRequests
    rw [if_pos h]
  · unfold appendCreateVideoRequests
    rw [if_pos h]

/-- Witness for C9 at two empty tables and two videos. -/
theorem generation_rejects_multiple_tables_and_videos_witness :
    appendCreateTableRequests [{rows := 0, columns := 0, cells := []},
        {rows := 0, columns := 0, cells := []}] =
      .error "Multiple tables per slide are not supported." ∧
      appendCreateVideoRequests
          [{width := 1600, height := 900, autoPlay := true, id := "a"},
           {width := 1600, height := 900, autoPlay := true, id := "b"}] c6Box =
        .error "Multiple videos per slide are not supported." :=
  ⟨generation_rejects_multiple_tables_and_videos.1 _ (by decide),
   generation_rejects_multiple_tables_and_videos.2.1 _ c6Box (by decide)⟩

/-! ### C10 — the generator mutates listMarkers in place -/

/-- Recognizer for bullet-conversion operations. -/
def isBulletRequest : Request → Bool
  | .createParagraphBullets _ _ _ => true
  | _ => false

/-- Style requests are never bullet requests. -/
theorem filter_bullet_styleRequests (runs : List StyleRun) :
    (runs.filterMap styleRequestFor).filter isBulletRequest = [] := by
  induction runs with
  | nil => rfl
  | cons r rest ih =>
    rw [List.filterMap_cons]
    rcases h : styleRequestFor r with _ | req
    · exact ih
    · have hreq : ∃ s e p fs, req = Request.updateTextStyle s e p fs := by
        unfold styleRequestFor at h
        by_cases hc : (computeShallowFieldMask r.payload).isEmpty
        · simp [hc] at h
        · simp [hc] at h
          exact ⟨_, _, _, _, h.symm⟩
      obtain ⟨s, e, p, fs, rfl⟩ := hreq
      simp [List.filter_cons, isBulletRequest, ih]

/-- Bullet requests all pass the bullet filter. -/
theorem filter_bullet_bulletRequests (ms : List ListMarker) :
    ((ms.map bulletRequestFor).filter isBulletRequest) = ms.map bulletRequestFor := by
  induction ms with
  | nil => rfl
  | cons m rest ih =>
    simp [List.filter_cons, bulletRequestFor, isBulletRequest, ih]

/-- The bullet requests emitted by one text-population pass, in order. -/
theorem bullets_of_appendInsertTextRequests (text : TextDefinition) :
    ((appendInsertTextRequests text).1.filter isBulletRequest) =
      text.listMarkers.reverse.map bulletRequestFor := by
  unfold appendInsertTextRequests
  simp [List.filter_cons, isBulletRequest, List.filter_append,
    filter_bullet_styleRequests, filter_bullet_bulletRequests]

/-- C10: `appendInsertTextRequests` mutates its input model — after one pass
the block's `listMarkers` are reversed in place, the first pass emits the
bullet-conversion operations in reverse document order, and a second pass on
the same (now mutated) block emits them in the original forward order:
generation is not a pure function of the compiled model. -/
theorem appendInsertTextRequests_reverses_markers (text : TextDefinition) :
    (appendInsertTextRequests text).2.listMarkers = text.listMarkers.reverse ∧
      ((appendInsertTextRequests text).1.filter isBulletRequest) =
        text.listMarkers.reverse.map bulletRequestFor ∧
      ((appendInsertTextRequests (appendInsertTextRequests text).2).1.filter isBulletRequest) =
        text.listMarkers.map bulletRequestFor := by
  refine ⟨rfl, bullets_of_appendInsertTextRequests text, ?_⟩
  rw [bullets_of_appendInsertTextRequests]
  show (((appendInsertTextRequests text).2.listMarkers).reverse.map bulletRequestFor) = _
  have h2 : (appendInsertTextRequests text).2.listMarkers = text.listMarkers.reverse := rfl
  rw [h2, List.reverse_reverse]

/-! ### C7 — thematic breaks and slide boundaries -/

/-- C7 counterexample: a stream that begins with a thematic break does NOT
always yield the same slide list as the stream without it — when the
remainder itself begins with a thematic break, the second break is consumed
as the new leading skip: `[hr, hr]` compiles to two slides while `[hr]`
compiles to one. -/
theorem leading_hr_removal_not_invariant_counterexample :
    (extractSlidesModel [Token.hr, Token.hr]).map List.length = .ok 2 ∧
      (extractSlidesModel [Token.hr]).map List.length = .ok 1 := ⟨rfl, rfl⟩

/-- C7 amended: a thematic-break token at stream position 0 is skipped
(no slide boundary), every thematic-break token processed by the dispatch
rule seals the current slide and opens a new one, and a stream beginning
with a thematic break yields the same slide list as the stream without it
PROVIDED the remainder does not itself begin with a thematic break. -/
theorem hr_slide_boundaries :
    (∀ (tokens : List Token) (ctx : Context),
      processTokensModel (Token.hr :: tokens) ctx = processTokenList tokens ctx) ∧
      (∀ ctx : Context, processTokenModel Token.hr ctx = .ok (ctx.endSlide.startSlide)) ∧
      (∀ tokens : List Token, tokens.head? ≠ some Token.hr →
        extractSlidesModel (Token.hr :: tokens) = extractSlidesModel tokens) := by
  refine ⟨fun tokens ctx => rfl, fun ctx => rfl, fun tokens h => ?_⟩
  unfold extractSlidesModel
  cases tokens with
  | nil => rfl
  | cons t rest =>
    cases t with
    | hr => exact absurd rfl h
    | _ => rfl

/-- Witness for the amended C7: removing the leading break before a
non-break token is invariant. -/
theorem hr_slide_boundaries_witness :
    extractSlidesModel [Token.hr, Token.unknown "paragraph"] =
      extractSlidesModel [Token.unknown "paragraph"] :=
  hr_slide_boundaries.2.2 [Token.unknown "paragraph"] (by decide)

/-! ### C8 — list nesting rules -/

/-- With a non-empty style stack, `endStyle` always succeeds. -/
theorem endStyle_ok (ctx : Context) (e : StyleEntry) (rest : List StyleEntry)
    (h : ctx.styles = e :: rest) : ∃ c, ctx.endStyle = .ok c := by
  unfold Context.endStyle
  rw [h]
  dsimp only
  rcases ctx.text with _ | t
  · exact ⟨_, rfl⟩
  · dsimp only
    split
    · exact ⟨_, rfl⟩
    · split
      · exact ⟨_, rfl⟩
      · split
        · exact ⟨_, rfl⟩
        · exact ⟨_, rfl⟩

/-- `endStyle` never touches the open-list state, the list markers of the
current block, or the pending row. -/
theorem endStyle_preserves (ctx c : Context) (hok : ctx.endStyle = .ok c) :
    c.list = ctx.list ∧
      (c.text.map fun t => t.listMarkers) = (ctx.text.map fun t => t.listMarkers) ∧
      c.row = ctx.row := by
  unfold Context.endStyle at hok
  rcases hst : ctx.styles with _ | ⟨e, rest⟩ <;> rw [hst] at hok
  · exact absurd hok (by simp)
  · dsimp only at hok
    rcases htext : ctx.text with _ | t <;> rw [htext] at hok
    · injection hok with hok
      subst hok
      simp [htext]
    · dsimp only at hok
      split at hok <;> [skip; split at hok] <;> [skip; skip; split at hok] <;>
        injection hok with hok <;> subst hok <;> simp [htext]

/-- The `ListMarker` appended by a depth-0 list close: the captured start,
the current text length, and the type derived from the token tag. -/
def closedMarker (l : ListDefinition) (t : TextDefinition) (tag : String) : ListMarker :=
  { start := l.start
    stop := t.rawText.length
    type := if tag = "ul" then "unordered" else "ordered" }

/-- C8: the list-nesting rules of the compiler.  (1) A list-open token while
a list with a different tag is open is a hard error; (2) with the same tag
the nesting depth increments; (3) a list-close at depth 0 appends the
captured range — from the open's recorded text length to the current text
length — as a `ListMarker` on the block and clears the open list; (4) a
list-close at positive depth only decrements the depth and emits no
marker. -/
theorem list_nesting_rules :
    (∀ (ctx : Context) (tag : String) (l : ListDefinition) (t : TextDefinition),
      ctx.list = some l → ctx.text = some t → l.tag ≠ tag →
      processTokenModel (.listOpen tag) ctx = .error "Nested lists must match parent style") ∧
      (∀ (ctx : Context) (tag : String) (l : ListDefinition) (t : TextDefinition),
        ctx.list = some l → ctx.text = some t → l.tag = tag →
        (processTokenModel (.listOpen tag) ctx).map (fun c => c.list) =
          .ok (some {l with depth := l.depth + 1})) ∧
      (∀ (ctx : Context) (tag : String) (l : ListDefinition) (t : TextDefinition)
          (e : StyleEntry) (rest : List StyleEntry),
        ctx.list = some l → ctx.text = some t → l.depth = 0 → ctx.styles = e :: rest →
        (processTokenModel (.listClose tag) ctx).map
            (fun c => (c.list, c.text.map fun tb => tb.listMarkers)) =
          .ok (none, some (t.listMarkers ++ [closedMarker l t tag]))) ∧
      (∀ (ctx : Context) (tag : String) (l : ListDefinition) (t : TextDefinition)
          (e : StyleEntry) (rest : List StyleEntry),
        ctx.list = some l → ctx.text = some t → 0 < l.depth → ctx.styles = e :: rest →
        (processTokenModel (.listClose tag) ctx).map
            (fun c => (c.list, c.text.map fun tb => tb.listMarkers)) =
          .ok (some {l with depth := l.depth - 1}, some t.listMarkers)) := by
  refine ⟨fun ctx tag l t hl ht hne => ?_, fun ctx tag l t hl ht heq => ?_,
    fun ctx tag l t e rest hl ht hd hst => ?_, fun ctx tag l t e rest hl ht hd hst => ?_⟩
  · simp only [processTokenModel]
    rw [ht, hl]
    simp [hne]
  · simp only [processTokenModel]
    rw [ht, hl]
    simp [heq, Except.map]
  · have hstep : processTokenModel (.listClose tag) ctx =
        Context.endStyle {ctx with
          list := none
          text := some {t with listMarkers := t.listMarkers ++ [closedMarker l t tag]}} := by
      simp only [processTokenModel]
      rw [hl, ht]
      dsimp only
      rw [if_pos hd]
      rfl
    rw [hstep]
    have hsty : ({ctx with
        list := none
        text := some {t with listMarkers := t.listMarkers ++ [closedMarker l t tag]}} :
          Context).styles = e :: rest := by simpa using hst
    obtain ⟨c, hc⟩ := endStyle_ok _ e rest hsty
    obtain ⟨hlist, hmarkers, _⟩ := endStyle_preserves _ c hc
    rw [hc]
    simp only [Except.map]
    rw [hlist, hmarkers]
    simp
  · have hstep : processTokenModel (.listClose tag) ctx =
        Context.endStyle {ctx with list := some {l with depth := l.depth - 1}} := by
      simp only [processTokenModel]
      rw [hl, ht]
      dsimp only
      rw [if_neg (by omega)]
    rw [hstep]
    have hsty : ({ctx with list := some {l with depth := l.depth - 1}} :
        Context).styles = e :: rest := by simpa using hst
    obtain ⟨c, hc⟩ := endStyle_ok _ e rest hsty
    obtain ⟨hlist, hmarkers, _⟩ := endStyle_preserves _ c hc
    rw [hc]
    simp only [Except.map]
    rw [hlist, hmarkers]
    simp [ht]

/-- An empty text block as produced by `startTextBlock`. -/
def c8Block : TextDefinition :=
  {rawText := "", textRuns := [], listMarkers := [], big := false}

/-- The open-list capture for the C8 witness. -/
def c8List : ListDefinition := {depth := 0, tag := "ul", start := 0}

/-- A context with an open unordered list at depth 0. -/
def c8Ctx : Context :=
  {Context.initial with
    text := some c8Block
    list := some c8List}

/-- Witness for C8: an `ol` open inside the open `ul` list errors, and a
depth-0 `ul` close appends the captured marker. -/
theorem list_nesting_rules_witness :
    processTokenModel (.listOpen "ol") c8Ctx = .error "Nested lists must match parent style" ∧
      (processTokenModel (.listClose "ul") c8Ctx).map
          (fun c => (c.list, c.text.map fun tb => tb.listMarkers)) =
        .ok (none, some (c8Block.listMarkers ++ [closedMarker c8List c8Block "ul"])) :=
  ⟨list_nesting_rules.1 c8Ctx "ol" c8List c8Block rfl rfl (by decide),
   list_nesting_rules.2.2.1 c8Ctx "ul" c8List c8Block {payload := emptyPayload, start := 0} []
     rfl rfl rfl rfl⟩

/-! ### C4 — invariants of emitted style runs -/

/-- Triple equality of style runs: same range bounds and same payload. -/
def sameTriple (a b : StyleRun) : Prop :=
  a.start = b.start ∧ a.stop = b.stop ∧ a.payload = b.payload

/-- A run matches any run with its own triple. -/
theorem runMatches_of_sameTriple (src cand : StyleRun) (h : sameTriple src cand) :
    runMatches src cand = true := by
  obtain ⟨h1, h2, h3⟩ := h
  simp [runMatches, h1.symm, h2.symm, ← h3, payloadMatches_self]

/-- C4 amended: (1) every style run pushed into `textRuns` by `endStyle` has
`start` DIFFERENT from `end` (not necessarily smaller: see the
counterexample) and a payload with at least one key set, and its
(start, end, payload) triple differs from every run already in the block;
(2) the generator emits no range-scoped style operation with an empty field
mask. -/
theorem pushed_run_invariants :
    (∀ (ctx c : Context) (t t2 : TextDefinition) (run : StyleRun),
      ctx.text = some t → ctx.endStyle = .ok c → c.text = some t2 →
      t2.textRuns = t.textRuns ++ [run] →
      run.start ≠ run.stop ∧ payloadIsEmpty run.payload = false ∧
        ∀ r ∈ t.textRuns, ¬sameTriple run r) ∧
      (∀ (text : TextDefinition) (s e : Nat) (p : StylePayload) (fs : List StyleKey),
        Request.updateTextStyle s e p fs ∈ (appendInsertTextRequests text).1 → fs ≠ []) := by
  constructor
  · intro ctx c t t2 run ht hok ht2 hpush
    unfold Context.endStyle at hok
    rcases hst : ctx.styles with _ | ⟨entry, rest⟩ <;> rw [hst] at hok
    · exact absurd hok (by simp)
    · dsimp only at hok
      rw [ht] at hok
      dsimp only at hok
      split at hok
      · injection hok with hok
        subst hok
        dsimp only at ht2
        injection ht2 with ht2
        subst ht2
        exact absurd hpush (by simp)
      · split at hok
        · injection hok with hok
          subst hok
          dsimp only at ht2
          injection ht2 with ht2
          subst ht2
          exact absurd hpush (by simp)
        · split at hok
          · injection hok with hok
            subst hok
            dsimp only at ht2
            injection ht2 with ht2
            subst ht2
            exact absurd hpush (by simp)
          · injection hok with hok
            subst hok
            dsimp only at ht2
            injection ht2 with ht2
            subst ht2
            dsimp only at hpush
            have hrun := List.append_inj_right hpush rfl
            have hr2 : run = ⟨entry.start, t.rawText.length, entry.payload⟩ := by
              simpa using hrun.symm
            subst hr2
            refine ⟨by assumption, by simpa using (by assumption :
              ¬payloadIsEmpty entry.payload = true), ?_⟩
            intro r hr hsame
            have hany : ¬((t.textRuns.any fun r => runMatches
                ⟨entry.start, t.rawText.length, entry.payload⟩ r) = true) := by
              assumption
            exact hany (List.any_eq_true.mpr ⟨r, hr, runMatches_of_sameTriple _ _ hsame⟩)
  · intro text s e p fs hmem
    unfold appendInsertTextRequests at hmem
    rcases List.mem_cons.mp hmem with h | h
    · exact absurd h.symm (by simp)
    · rcases List.mem_append.mp h with h | h
      · obtain ⟨run, _, hrun⟩ := List.mem_filterMap.mp h
        unfold styleRequestFor at hrun
        by_cases hc : (computeShallowFieldMask run.payload).isEmpty
        · simp [hc] at hrun
        · rw [if_neg (by simpa using hc)] at hrun
          injection hrun with hrun
          injection hrun with h1 h2 h3 h4
          subst h4
          simpa [List.isEmpty_iff] using hc
      · obtain ⟨m, _, hm⟩ := List.mem_map.mp h
        exact absurd hm (by simp [bulletRequestFor])

/-- Token stream for the C4 counterexample: a paragraph "hello" (6
characters with the closing newline) followed by a one-cell table.  The
`th_open` rule calls `startStyle` BEFORE `startTextBlock`, so the cell style
scope records start offset 6 against the body block, while the scope closes
at the cell text length 2. -/
def c4Tokens : List Token :=
  [.paragraphOpen false none, .inlineText "hello", .paragraphClose,
   .tableOpen, .trOpen, .thOpen, .inlineText "ab", .tdClose, .trClose, .tableClose]

/-- The style runs of the first table cell compiled from `c4Tokens`. -/
def c4CellRuns : Option (List StyleRun) :=
  match extractSlidesModel c4Tokens with
  | .error _ => none
  | .ok slides =>
    (((((slides.head?.map fun s => s.tables).bind List.head?).map
      fun tb => tb.cells).bind List.head?).bind List.head?).map fun cell => cell.textRuns

/-- C4 counterexample: compiling `c4Tokens` pushes into the cell's
`textRuns` a run with start 6 and end 2 — start is NOT strictly less than
end for every pushed run (the run pushed by the cell's inner text token has
range (0,2); the one pushed by `th_close` has range (6,2)). -/
theorem cell_run_start_exceeds_end_counterexample :
    (c4CellRuns.map fun runs => runs.map fun r => (r.start, r.stop)) =
        some [(0, 2), (6, 2)] ∧
      (c4CellRuns.map fun runs => runs.all fun r => decide (r.start < r.stop)) =
        some false := ⟨rfl, rfl⟩

/-- The block open when the C4 witness scope closes. -/
def c4WitnessBlock : TextDefinition :=
  {rawText := "x", textRuns := [], listMarkers := [], big := false}

/-- The run pushed by the C4 witness `endStyle` call. -/
def c4WitnessRun : StyleRun := ⟨0, 1, {bold := some true}⟩

/-- A context about to close a bold scope over the one-character block. -/
def c4WitnessCtx : Context :=
  {Context.initial with
    text := some c4WitnessBlock
    styles := [{payload := {bold := some true}, start := 0}]}

/-- The context after the C4 witness `endStyle` call. -/
def c4WitnessResult : Context :=
  {Context.initial with
    text := some {rawText := "x", textRuns := [c4WitnessRun], listMarkers := [], big := false}
    styles := []}

/-- Witness for the amended C4 at the concrete bold scope push. -/
theorem pushed_run_invariants_witness :
    c4WitnessRun.start ≠ c4WitnessRun.stop ∧
      payloadIsEmpty c4WitnessRun.payload = false ∧
      ∀ r ∈ c4WitnessBlock.textRuns, ¬sameTriple c4WitnessRun r :=
  pushed_run_invariants.1 c4WitnessCtx c4WitnessResult c4WitnessBlock
    {rawText := "x", textRuns := [c4WitnessRun], listMarkers := [], big := false}
    c4WitnessRun rfl (by rfl) rfl rfl
